import Mathlib

/-
Shallow embedding of src/api/webhook.js (a Telegram voice-note webhook).

Modelling choices, fixed once for the whole development:

* Every outbound HTTP operation the code performs (sendMessage, getFile, the
  file download, generateContent, editMessageText, deleteMessage,
  answerCallbackQuery) is recorded in a trace at the moment the code issues
  it, and then either returns a value or throws, as decided by an abstract
  environment `Env`.  The environment is indexed by the position of the call
  in the run (a call counter), so the n-th outbound call of a run gets the
  n-th answer.  Recording happens even when the call subsequently throws:
  this is the mock-testing semantics of `await fetch` (the request is issued,
  then the awaited promise may reject).
* Exceptions are `Except String`, the string being the JS error's `.message`.
  `try/catch` is `M.tryCatch`; a thrown error carries the state (and so the
  trace) at the point of the throw.
* A successful `sendMessage` response is modelled as the `result.message_id`
  integer, the only field the code reads.  A successful `getFile` response is
  modelled as the `result.file_path` string; a successful file download as
  the base64 encoding of the downloaded bytes (the code converts the bytes
  with `Buffer.from(...).toString('base64')`; the byte-to-base64 step is
  deterministic, so the oracle hands over the encoded form directly).
* A decoded Gemini response is reduced to the two paths the code reads:
  a top-level `error.message` and `candidates[0].content.parts[0].text`.
  JS `x || y` treats the empty string as falsy, which `geminiText` models.
* The module-level `audioCache` map is declared in the source but never read
  or written, so it does not appear in the model.
-/

namespace VoiceBot

/-- `message.voice` : the only field read is `file_id`. -/
structure Voice where
  file_id : String
deriving DecidableEq

/-- `message.chat` : the only field read is `id`. -/
structure Chat where
  id : Int
deriving DecidableEq

/-- `message.reply_to_message` : the replied-to message, with its own chat
(the original voice sender's) and an optional voice attachment. -/
structure ReplyMessage where
  chat : Chat
  voice : Option Voice
deriving DecidableEq

/-- An inbound `update.message`. -/
structure Message where
  chat : Chat
  voice : Option Voice
  reply_to_message : Option ReplyMessage
deriving DecidableEq

/-- `update.callback_query` : the only field read is `id`. -/
structure CallbackQuery where
  id : String
deriving DecidableEq

/-- An inbound Telegram update: the two fields the handler reads. -/
structure Update where
  message : Option Message
  callback_query : Option CallbackQuery
deriving DecidableEq

/-- The inbound HTTP request: its method and its JSON body. -/
structure Req where
  method : String
  body : Update
deriving DecidableEq

/-- One part of a Gemini `generateContent` request body. -/
inductive GeminiPart where
  | inlineData (mime_type : String) (data : String)
  | text (t : String)
deriving DecidableEq

/-- A decoded Gemini response, reduced to the two paths the code reads:
`error.message` (when a top-level error object is present) and
`candidates[0].content.parts[0].text` (when that nested path is present). -/
structure GeminiResponse where
  error : Option String
  text : Option String
deriving DecidableEq

/-- One outbound HTTP call issued by the code, with the arguments the code
puts in the request. -/
inductive Call where
  | sendMessage (chat_id : Int) (text : String) (parse_mode : Option String)
  | getFile (file_id : String)
  | downloadFile (file_path : String)
  | generateContent (parts : List GeminiPart)
  | editMessageText (chat_id : Int) (message_id : Int) (text : String)
  | deleteMessage (chat_id : Int) (message_id : Int)
  | answerCallbackQuery (callback_query_id : String) (text : String)
deriving DecidableEq

/-- Run state: the call counter and the trace of calls issued so far. -/
structure S where
  k : Nat
  trace : List Call
deriving DecidableEq

/-- The environment: for each call position, the outcome of the outbound
call made at that position (a thrown error message, or the decoded value
the code goes on to use). -/
structure Env where
  send : Nat → Except String Int
  getFileR : Nat → Except String String
  downloadR : Nat → Except String String
  gemini : Nat → Except String GeminiResponse
  editR : Nat → Except String Unit
  deleteR : Nat → Except String Unit
  answerR : Nat → Except String Unit

/-- The run monad: state passing plus exceptions, the state (and so the
trace) surviving a throw. -/
def M (α : Type) : Type := S → Except String α × S

def M.pure {α : Type} (a : α) : M α := fun s => (Except.ok a, s)

def M.bind {α β : Type} (x : M α) (f : α → M β) : M β := fun s =>
  match x s with
  | (Except.ok a, s1) => f a s1
  | (Except.error e, s1) => (Except.error e, s1)

instance : Monad M where
  pure := M.pure
  bind := M.bind

/-- `throw new Error(msg)`. -/
def M.throw {α : Type} (e : String) : M α := fun s => (Except.error e, s)

/-- JS `try { x } catch (error) { h(error) }`. -/
def M.tryCatch {α : Type} (x : M α) (h : String → M α) : M α := fun s =>
  match x s with
  | (Except.ok a, s1) => (Except.ok a, s1)
  | (Except.error e, s1) => h e s1

/-- Issue one outbound call: record it, consume one oracle answer. -/
def callOut {α : Type} (c : Call) (r : Nat → Except String α) : M α := fun s =>
  (r s.k, ⟨s.k + 1, s.trace ++ [c]⟩)

/-- JS `sendMessage(chatId, text, options)` : POST /sendMessage; the success
value models `result.message_id`, the only field the caller reads. -/
def sendMessage (env : Env) (chatId : Int) (text : String)
    (parse_mode : Option String) : M Int :=
  callOut (Call.sendMessage chatId text parse_mode) env.send

/-- JS `editMessage(chatId, messageId, text)` : POST /editMessageText; the
response body is ignored. -/
def editMessage (env : Env) (chatId : Int) (messageId : Int) (text : String) :
    M Unit :=
  callOut (Call.editMessageText chatId messageId text) env.editR

/-- JS `deleteMessage(chatId, messageId)` : POST /deleteMessage; the
response body is ignored. -/
def deleteMessage (env : Env) (chatId : Int) (messageId : Int) : M Unit :=
  callOut (Call.deleteMessage chatId messageId) env.deleteR

/-- JS `answerCallback(callbackId, text = '')` : POST /answerCallbackQuery. -/
def answerCallback (env : Env) (callbackId : String) (text : String) : M Unit :=
  callOut (Call.answerCallbackQuery callbackId text) env.answerR

/-- The `fetch(TELEGRAM_API/getFile?file_id=...)` step; the success value
models `fileData.result.file_path`, the only field read. -/
def getFile (env : Env) (fileId : String) : M String :=
  callOut (Call.getFile fileId) env.getFileR

/-- The audio download step; the success value models the base64 encoding of
the downloaded bytes. -/
def downloadFile (env : Env) (filePath : String) : M String :=
  callOut (Call.downloadFile filePath) env.downloadR

/-- A POST to the Gemini `generateContent` endpoint with the given parts. -/
def geminiGenerate (env : Env) (parts : List GeminiPart) : M GeminiResponse :=
  callOut (Call.generateContent parts) env.gemini

/-- JS `data.candidates?.[0]?.content?.parts?.[0]?.text || fallback` : the
text part when present and non-empty (`||` treats `""` as falsy). -/
def geminiText (data : GeminiResponse) : Option String :=
  match data.text with
  | some t => if t = "" then none else some t
  | none => none

/-- The fixed transcription instruction string (source lines 112-121). -/
def transcriptionInstruction : String :=
  "Транскрибируй это аудио.\n\nПравила:\n- Записывай дословно, сохраняя все слова\n- Разбивай на абзацы по смыслу (каждая законченная мысль — новый абзац)\n- Ставь пустую строку между абзацами\n- Исправляй очевидные речевые ошибки\n- Убирай \"э\", \"эм\", \"ээ\" в начале фраз\n- Отвечай на языке аудио\n- Выводи только транскрипцию"

/-- The fixed note instruction string up to the trailing `${transcription}`
interpolation (source lines 144-173). -/
def noteInstructionHead : String :=
  "Преобразуй транскрипцию в структурированную заметку.\n\nФормат:\n1. Придумай короткий заголовок (без эмодзи, без форматирования)\n2. Раздели содержимое на тематические секции\n3. Каждая секция: заголовок + буллеты\n4. Буллеты начинай с \"• \" (точка с пробелом)\n5. Вложенные пункты начинай с \"  • \" (два пробела + точка)\n\nПример формата:\nЗаголовок заметки\n\n Название секции\n• Первый пункт\n• Второй пункт\n  • Вложенный пункт\n\n Другая секция\n• Пункт\n\nПравила:\n- Убирай слова-паразиты и воду\n- Сохраняй ключевые мысли и детали\n- Группируй связанные идеи\n- Используй краткие, ёмкие формулировки\n- Отвечай на языке входного текста\n- Выводи только заметку\n\nТранскрипция:\n"

/-- The parts of the transcription request body: inline audio plus the fixed
instruction. -/
def transcribeParts (base64Audio : String) : List GeminiPart :=
  [GeminiPart.inlineData "audio/ogg" base64Audio,
   GeminiPart.text transcriptionInstruction]

/-- The parts of the note-formatting request body: the fixed instruction
with the transcription appended. -/
def formatParts (transcription : String) : List GeminiPart :=
  [GeminiPart.text (noteInstructionHead ++ transcription)]

/-- JS `getTranscription(base64Audio)` : call Gemini with the audio; throw
on `data.error`; otherwise the text part or null. -/
def getTranscription (env : Env) (base64Audio : String) : M (Option String) := do
  let data ← geminiGenerate env (transcribeParts base64Audio)
  match data.error with
  | some m => M.throw m
  | none => pure (geminiText data)

/-- JS `formatAsNote(transcription)` : call Gemini with the instruction and
the transcription; the text part, falling back to the raw transcription.
Note: unlike `getTranscription`, this function never inspects `data.error`. -/
def formatAsNote (env : Env) (transcription : String) : M String := do
  let data ← geminiGenerate env (formatParts transcription)
  pure ((geminiText data).getD transcription)

/-- The interim notification text (source line 56). -/
def processingText : String := "⏳ Обрабатываю голосовое..."

/-- The recognition-failure notice (source line 75). -/
def recognitionFailedText : String := "❌ Не удалось распознать речь"

/-- The error notice shown by the flow's catch block (source line 94). -/
def errorNoticeText (e : String) : String := "❌ Ошибка обработки: " ++ e

/-- The final combined message (source lines 86-88). -/
def finalText (transcription note : String) : String :=
  "📝 <b>Транскрипция:</b>\n" ++ transcription ++ "\n\n" ++
    "━━━━━━━━━━━━━━━\n\n" ++
    "📋 <b>Заметка:</b>\n" ++ note

/-- The argument `handleVoiceMessage` receives, reduced to the fields it
reads: `message.chat.id` and `message.voice.file_id`. -/
structure VoiceMsg where
  chatId : Int
  fileId : String
deriving DecidableEq

/-- The body of the `try` block of `handleVoiceMessage` (source lines 58-91):
resolve the file path, download and encode the audio, transcribe; on no
usable text edit the interim message to the failure notice and stop;
otherwise format the note, delete the interim message, send the final
combined message. -/
def voiceFlowBody (env : Env) (chatId : Int) (fileId : String)
    (processingMsgId : Int) : M Unit := do
  let filePath ← getFile env fileId
  let base64Audio ← downloadFile env filePath
  let transcription ← getTranscription env base64Audio
  match transcription with
  | none => editMessage env chatId processingMsgId recognitionFailedText
  | some t => do
      let note ← formatAsNote env t
      deleteMessage env chatId processingMsgId
      let _ ← sendMessage env chatId (finalText t note) (some "HTML")
      pure ()

/-- JS `handleVoiceMessage(message)` (source lines 51-96): send the interim
notification (outside the try), then run the flow body under the error
boundary whose catch edits the interim message to the error notice. -/
def handleVoiceMessage (env : Env) (message : VoiceMsg) : M Unit := do
  let processingMsgId ← sendMessage env message.chatId processingText none
  M.tryCatch (voiceFlowBody env message.chatId message.fileId processingMsgId)
    (fun e => editMessage env message.chatId processingMsgId (errorNoticeText e))

/-- JS `handleCallback(callback)` : acknowledge with the default empty text. -/
def handleCallback (env : Env) (callback : CallbackQuery) : M Unit :=
  answerCallback env callback.id ""

/-- Source lines 23-32: locate the voice message.  A direct (or forwarded)
voice message is processed as-is; a reply to a voice message is processed as
the replied-to message with its `chat` overwritten by the replying message's
chat (`voiceMessage.chat = message.chat`). -/
def resolveVoiceMessage (message : Message) : Option VoiceMsg :=
  match message.voice with
  | some v => some ⟨message.chat.id, v.file_id⟩
  | none =>
      match message.reply_to_message with
      | some reply =>
          match reply.voice with
          | some v => some ⟨message.chat.id, v.file_id⟩
          | none => none
      | none => none

/-- The body of the handler's `try` block (source lines 14-44): run the
voice flow when a voice message is located, then acknowledge a callback
query when present. -/
def handlerBody (env : Env) (update : Update) : M Unit := do
  match update.message with
  | some message =>
      match resolveVoiceMessage message with
      | some voiceMessage => handleVoiceMessage env voiceMessage
      | none => pure ()
  | none => pure ()
  match update.callback_query with
  | some callback => handleCallback env callback
  | none => pure ()

/-- The handler's HTTP response: status code and whether the body is the
fixed `{ok:true}` object (the only body the code ever sends). -/
structure HandlerResponse where
  status : Nat
  ok : Bool
deriving DecidableEq

/-- JS `handler(req, res)` (source lines 8-49): non-POST requests are
acknowledged immediately; POST requests run the body under a catch that
swallows every error; both branches respond 200 `{ok:true}`.  The second
component is the trace of outbound calls issued. -/
def handler (env : Env) (req : Req) : HandlerResponse × List Call :=
  if req.method ≠ "POST" then (⟨200, true⟩, [])
  else
    match handlerBody env req.body ⟨0, []⟩ with
    | (Except.ok _, s) => (⟨200, true⟩, s.trace)
    | (Except.error _, s) => (⟨200, true⟩, s.trace)

/-- Whether a call is an editMessageText call. -/
def isEditCall : Call → Bool
  | Call.editMessageText _ _ _ => true
  | _ => false

/-- Whether a call is a sendMessage call. -/
def isSendCall : Call → Bool
  | Call.sendMessage _ _ _ => true
  | _ => false

/-- Whether a call is a generateContent call whose single part is a text
part, i.e. a note-reformatting request (a transcription request instead
carries inline audio). -/
def isFormatCall : Call → Bool
  | Call.generateContent [GeminiPart.text _] => true
  | _ => false

/-- Whether a call is a deleteMessage call. -/
def isDeleteCall : Call → Bool
  | Call.deleteMessage _ _ => true
  | _ => false

/-- Replace the chat id of a chat-targeting call, leaving every other
argument and every non-chat-targeting call unchanged. -/
def Call.retarget (c : Int) : Call → Call
  | Call.sendMessage _ t p => Call.sendMessage c t p
  | Call.editMessageText _ m t => Call.editMessageText c m t
  | Call.deleteMessage _ m => Call.deleteMessage c m
  | other => other

/-- A happy-path environment: every platform call succeeds, the
transcription request yields a transcription, the formatting request yields
a note. -/
def envOK : Env where
  send := fun k => Except.ok (Int.ofNat (10 + k))
  getFileR := fun _ => Except.ok "voice/file_7.oga"
  downloadR := fun _ => Except.ok "QUJD"
  gemini := fun k =>
    if k = 3 then Except.ok ⟨none, some "Привет мир."⟩
    else Except.ok ⟨none, some "Заметка\n\n• Привет"⟩
  editR := fun _ => Except.ok ()
  deleteR := fun _ => Except.ok ()
  answerR := fun _ => Except.ok ()

/-- An environment in which everything succeeds except the final
sendMessage of the combined message, which throws. -/
def envCE2 : Env where
  send := fun k => if k = 0 then Except.ok 10 else Except.error "connection reset"
  getFileR := fun _ => Except.ok "voice/file_7.oga"
  downloadR := fun _ => Except.ok "QUJD"
  gemini := fun k =>
    if k = 3 then Except.ok ⟨none, some "Привет мир."⟩
    else Except.ok ⟨none, some "Заметка\n\n• Привет"⟩
  editR := fun _ => Except.ok ()
  deleteR := fun _ => Except.ok ()
  answerR := fun _ => Except.ok ()

/-- An environment in which the transcription response carries neither an
error object nor any text, and every editMessageText call throws. -/
def envCE3 : Env where
  send := fun _ => Except.ok 10
  getFileR := fun _ => Except.ok "voice/file_7.oga"
  downloadR := fun _ => Except.ok "QUJD"
  gemini := fun _ => Except.ok ⟨none, none⟩
  editR := fun _ => Except.error "network down"
  deleteR := fun _ => Except.ok ()
  answerR := fun _ => Except.ok ()

/-- An environment in which the transcription response carries an empty
text part (falsy in JS, hence no usable text) and no error object, and
every platform call succeeds. -/
def envW3 : Env where
  send := fun _ => Except.ok 10
  getFileR := fun _ => Except.ok "voice/file_7.oga"
  downloadR := fun _ => Except.ok "QUJD"
  gemini := fun _ => Except.ok ⟨none, some ""⟩
  editR := fun _ => Except.ok ()
  deleteR := fun _ => Except.ok ()
  answerR := fun _ => Except.ok ()

/-- An environment in which the getFile step throws. -/
def envW2 : Env where
  send := fun _ => Except.ok 10
  getFileR := fun _ => Except.error "boom"
  downloadR := fun _ => Except.ok "QUJD"
  gemini := fun _ => Except.ok ⟨none, none⟩
  editR := fun _ => Except.ok ()
  deleteR := fun _ => Except.ok ()
  answerR := fun _ => Except.ok ()

/-- An environment in which the formatting response carries a top-level
error object and no text (the transcription response is normal). -/
def envNoNote : Env where
  send := fun k => Except.ok (Int.ofNat (10 + k))
  getFileR := fun _ => Except.ok "voice/file_7.oga"
  downloadR := fun _ => Except.ok "QUJD"
  gemini := fun k =>
    if k = 3 then Except.ok ⟨none, some "Привет мир."⟩
    else Except.ok ⟨some "oops", none⟩
  editR := fun _ => Except.ok ()
  deleteR := fun _ => Except.ok ()
  answerR := fun _ => Except.ok ()

/-- An environment in which every Gemini response carries a top-level error
object. -/
def envErr : Env where
  send := fun _ => Except.ok 10
  getFileR := fun _ => Except.ok "voice/file_7.oga"
  downloadR := fun _ => Except.ok "QUJD"
  gemini := fun _ => Except.ok ⟨some "quota exceeded", none⟩
  editR := fun _ => Except.ok ()
  deleteR := fun _ => Except.ok ()
  answerR := fun _ => Except.ok ()

/-- An environment in which every sendMessage call throws. -/
def envW10 : Env where
  send := fun _ => Except.error "down"
  getFileR := fun _ => Except.ok "voice/file_7.oga"
  downloadR := fun _ => Except.ok "QUJD"
  gemini := fun _ => Except.ok ⟨none, none⟩
  editR := fun _ => Except.ok ()
  deleteR := fun _ => Except.ok ()
  answerR := fun _ => Except.ok ()

/-- A message that is a reply (in chat 5) to a voice message originally
sent in chat 7. -/
def mReply : Message := ⟨⟨5⟩, none, some ⟨⟨7⟩, some ⟨"abc"⟩⟩⟩

theorem bind_run {α β : Type} (x : M α) (f : α → M β) : x >>= f = M.bind x f := rfl

theorem pure_run {α : Type} (a : α) : (pure a : M α) = M.pure a := rfl

/-- Changing the chat id handed to `handleVoiceMessage` changes nothing
about a run except the chat id carried by the chat-targeting calls: the
result, the call count, and every other argument of every call coincide.
The environment is indexed by call position only, so the two runs consume
identical oracle answers. -/
theorem handleVoiceMessage_retarget (env : Env) (c c2 : Int) (f : String) :
    handleVoiceMessage env ⟨c2, f⟩ ⟨0, []⟩ =
      ((handleVoiceMessage env ⟨c, f⟩ ⟨0, []⟩).1,
       ⟨(handleVoiceMessage env ⟨c, f⟩ ⟨0, []⟩).2.k,
        (handleVoiceMessage env ⟨c, f⟩ ⟨0, []⟩).2.trace.map (Call.retarget c2)⟩) := by
  simp only [handleVoiceMessage, voiceFlowBody, sendMessage, getFile, downloadFile,
    getTranscription, geminiGenerate, formatAsNote, editMessage, deleteMessage, callOut,
    bind_run, pure_run, M.bind, M.pure, M.tryCatch, M.throw]
  cases h0 : env.send 0 with
  | error e => simp [handleVoiceMessage, voiceFlowBody, sendMessage, getFile, downloadFile,
      getTranscription, geminiGenerate, formatAsNote, editMessage, deleteMessage, callOut,
      bind_run, pure_run, M.bind, M.pure, M.tryCatch, M.throw, h0, Call.retarget]
  | ok mid =>
    cases h1 : env.getFileR 1 with
    | error e => simp [handleVoiceMessage, voiceFlowBody, sendMessage, getFile, downloadFile,
        getTranscription, geminiGenerate, formatAsNote, editMessage, deleteMessage, callOut,
        bind_run, pure_run, M.bind, M.pure, M.tryCatch, M.throw, h0, h1, Call.retarget]
    | ok p =>
      cases h2 : env.downloadR 2 with
      | error e => simp [handleVoiceMessage, voiceFlowBody, sendMessage, getFile, downloadFile,
          getTranscription, geminiGenerate, formatAsNote, editMessage, deleteMessage, callOut,
          bind_run, pure_run, M.bind, M.pure, M.tryCatch, M.throw, h0, h1, h2, Call.retarget]
      | ok a =>
        cases h3 : env.gemini 3 with
        | error e => simp [handleVoiceMessage, voiceFlowBody, sendMessage, getFile, downloadFile,
            getTranscription, geminiGenerate, formatAsNote, editMessage, deleteMessage, callOut,
            bind_run, pure_run, M.bind, M.pure, M.tryCatch, M.throw, h0, h1, h2, h3, Call.retarget]
        | ok resp1 =>
          cases hr : resp1.error with
          | some m => simp [handleVoiceMessage, voiceFlowBody, sendMessage, getFile, downloadFile,
              getTranscription, geminiGenerate, formatAsNote, editMessage, deleteMessage, callOut,
              bind_run, pure_run, M.bind, M.pure, M.tryCatch, M.throw, h0, h1, h2, h3, hr, Call.retarget]
          | none =>
            cases hg : geminiText resp1 with
            | none =>
              cases he : env.editR 4 with
              | error e => simp [handleVoiceMessage, voiceFlowBody, sendMessage, getFile, downloadFile,
                  getTranscription, geminiGenerate, formatAsNote, editMessage, deleteMessage, callOut,
                  bind_run, pure_run, M.bind, M.pure, M.tryCatch, M.throw, h0, h1, h2, h3, hr, hg, he, Call.retarget]
              | ok u => simp [handleVoiceMessage, voiceFlowBody, sendMessage, getFile, downloadFile,
                  getTranscription, geminiGenerate, formatAsNote, editMessage, deleteMessage, callOut,
                  bind_run, pure_run, M.bind, M.pure, M.tryCatch, M.throw, h0, h1, h2, h3, hr, hg, he, Call.retarget]
            | some t =>
              cases h4 : env.gemini 4 with
              | error e => simp [handleVoiceMessage, voiceFlowBody, sendMessage, getFile, downloadFile,
                  getTranscription, geminiGenerate, formatAsNote, editMessage, deleteMessage, callOut,
                  bind_run, pure_run, M.bind, M.pure, M.tryCatch, M.throw, h0, h1, h2, h3, hr, hg, h4, Call.retarget]
              | ok resp2 =>
                cases h5 : env.deleteR 5 with
                | error e => simp [handleVoiceMessage, voiceFlowBody, sendMessage, getFile, downloadFile,
                    getTranscription, geminiGenerate, formatAsNote, editMessage, deleteMessage, callOut,
                    bind_run, pure_run, M.bind, M.pure, M.tryCatch, M.throw, h0, h1, h2, h3, hr, hg, h4, h5, Call.retarget]
                | ok u =>
                  cases h6 : env.send 6 with
                  | error e => simp [handleVoiceMessage, voiceFlowBody, sendMessage, getFile, downloadFile,
                      getTranscription, geminiGenerate, formatAsNote, editMessage, deleteMessage, callOut,
                      bind_run, pure_run, M.bind, M.pure, M.tryCatch, M.throw, h0, h1, h2, h3, hr, hg, h4, h5, h6, Call.retarget]
                  | ok mid2 => simp [handleVoiceMessage, voiceFlowBody, sendMessage, getFile, downloadFile,
                      getTranscription, geminiGenerate, formatAsNote, editMessage, deleteMessage, callOut,
                      bind_run, pure_run, M.bind, M.pure, M.tryCatch, M.throw, h0, h1, h2, h3, hr, hg, h4, h5, h6, Call.retarget]

/-- C1: for every inbound request the handler's HTTP response is status 200
with body ok:true; a non-POST request is acknowledged without any outbound
call, and for a POST request this response is produced whether the update
processing succeeds or throws. -/
theorem C1_response_always_ok (env : Env) (req : Req) :
    (handler env req).1 = ⟨200, true⟩ ∧
      (req.method ≠ "POST" → (handler env req).2 = []) := by
  unfold handler
  split
  · exact ⟨rfl, fun _ => rfl⟩
  · rename_i h
    constructor
    · rcases hb : handlerBody env req.body ⟨0, []⟩ with ⟨r, s⟩
      cases r <;> simp [hb]
    · exact fun hne => absurd hne h

theorem C1_response_always_ok_witness :
    (handler envOK ⟨"GET", ⟨none, none⟩⟩).1 = ⟨200, true⟩ ∧
      (handler envOK ⟨"GET", ⟨none, none⟩⟩).2 = [] :=
  ⟨(C1_response_always_ok envOK ⟨"GET", ⟨none, none⟩⟩).1,
   (C1_response_always_ok envOK ⟨"GET", ⟨none, none⟩⟩).2 (by decide)⟩

/-- C2 counterexample: in a run where every step succeeds except the final
combined sendMessage, which throws, the flow's catch still edits the interim
message, but the final combined transcription-plus-note message HAS been
sent (its sendMessage call is in the trace, issued before the throw was
observed), contradicting the claim's "no final combined message is sent":
the trace holds two sendMessage calls, the interim one and the final one. -/
theorem C2_counterexample_final_send_issued :
    (voiceFlowBody envCE2 1 "abc" 10 ⟨1, [Call.sendMessage 1 processingText none]⟩).1
        = Except.error "connection reset" ∧
    (handleVoiceMessage envCE2 ⟨1, "abc"⟩ ⟨0, []⟩).2.trace =
      [Call.sendMessage 1 processingText none,
       Call.getFile "abc",
       Call.downloadFile "voice/file_7.oga",
       Call.generateContent (transcribeParts "QUJD"),
       Call.generateContent (formatParts "Привет мир."),
       Call.deleteMessage 1 10,
       Call.sendMessage 1 (finalText "Привет мир." "Заметка\n\n• Привет") (some "HTML"),
       Call.editMessageText 1 10 (errorNoticeText "connection reset")] ∧
    List.countP isSendCall (handleVoiceMessage envCE2 ⟨1, "abc"⟩ ⟨0, []⟩).2.trace = 2 :=
  ⟨rfl, rfl, rfl⟩

/-- C2 (amended): if any step of the error-guarded flow body throws after a
successful interim message, the error boundary appends exactly one
editMessageText call, targeting the interim message, whose text contains
the thrown error's message text, and this edit is the only call issued
after the throwing step; a final-message send call can occur only as the
throwing step itself, and an additional edit only as the throwing
recognition-failure edit. -/
theorem C2_error_edit_after_throw (env : Env) (c : Int) (f : String) (mid : Int)
    (e : String) (s1 : S)
    (h0 : env.send 0 = Except.ok mid)
    (hb : voiceFlowBody env c f mid ⟨1, [Call.sendMessage c processingText none]⟩
            = (Except.error e, s1)) :
    (handleVoiceMessage env ⟨c, f⟩ ⟨0, []⟩).2.trace
        = s1.trace ++ [Call.editMessageText c mid (errorNoticeText e)] ∧
    ∃ p, errorNoticeText e = p ++ e := by
  constructor
  · simp [handleVoiceMessage, sendMessage, editMessage, callOut, bind_run, M.bind,
      M.tryCatch, h0, hb]
  · exact ⟨"❌ Ошибка обработки: ", rfl⟩

theorem C2_error_edit_after_throw_witness :
    (handleVoiceMessage envW2 ⟨1, "abc"⟩ ⟨0, []⟩).2.trace
        = [Call.sendMessage 1 processingText none, Call.getFile "abc"]
            ++ [Call.editMessageText 1 10 (errorNoticeText "boom")] ∧
    ∃ p, errorNoticeText "boom" = p ++ "boom" :=
  C2_error_edit_after_throw envW2 1 "abc" 10 "boom"
    ⟨2, [Call.sendMessage 1 processingText none, Call.getFile "abc"]⟩ rfl rfl

/-- C3 counterexample: in a run where the transcription response carries
neither an error object nor any text and the recognition-failure edit call
itself throws, the flow's catch issues a second editMessageText call (the
error notice), so the trace holds two edit calls, contradicting the claim's
"exactly one editMessageText call occurs". -/
theorem C3_counterexample_second_edit :
    envCE3.gemini 3 = Except.ok ⟨none, none⟩ ∧
    (handleVoiceMessage envCE3 ⟨1, "abc"⟩ ⟨0, []⟩).2.trace =
      [Call.sendMessage 1 processingText none,
       Call.getFile "abc",
       Call.downloadFile "voice/file_7.oga",
       Call.generateContent (transcribeParts "QUJD"),
       Call.editMessageText 1 10 recognitionFailedText,
       Call.editMessageText 1 10 (errorNoticeText "network down")] ∧
    List.countP isEditCall (handleVoiceMessage envCE3 ⟨1, "abc"⟩ ⟨0, []⟩).2.trace = 2 :=
  ⟨rfl, rfl, rfl⟩

/-- C3 (amended): when the transcription response carries neither an error
object nor any usable text, the interim message is edited to the
recognition-failure notice and no reformatting call, no delete call, and no
final message occur; that edit is the only editMessageText call unless it
itself throws, in which case the error boundary issues exactly one further
editMessageText (the error notice) and still nothing else. -/
theorem C3_no_text_edits_interim (env : Env) (c : Int) (f : String) (mid : Int)
    (p a : String) (resp : GeminiResponse)
    (h0 : env.send 0 = Except.ok mid)
    (h1 : env.getFileR 1 = Except.ok p)
    (h2 : env.downloadR 2 = Except.ok a)
    (h3 : env.gemini 3 = Except.ok resp)
    (hre : resp.error = none)
    (hg : geminiText resp = none) :
    (handleVoiceMessage env ⟨c, f⟩ ⟨0, []⟩).2.trace =
      [Call.sendMessage c processingText none,
       Call.getFile f,
       Call.downloadFile p,
       Call.generateContent (transcribeParts a),
       Call.editMessageText c mid recognitionFailedText]
        ++ (match env.editR 4 with
            | Except.ok _ => []
            | Except.error e => [Call.editMessageText c mid (errorNoticeText e)]) ∧
    List.countP isFormatCall (handleVoiceMessage env ⟨c, f⟩ ⟨0, []⟩).2.trace = 0 ∧
    List.countP isDeleteCall (handleVoiceMessage env ⟨c, f⟩ ⟨0, []⟩).2.trace = 0 ∧
    List.countP isSendCall (handleVoiceMessage env ⟨c, f⟩ ⟨0, []⟩).2.trace = 1 := by
  cases he : env.editR 4 <;>
    simp [handleVoiceMessage, voiceFlowBody, sendMessage, getFile, downloadFile,
      getTranscription, geminiGenerate, formatAsNote, editMessage, deleteMessage, callOut,
      bind_run, pure_run, M.bind, M.pure, M.tryCatch, M.throw, h0, h1, h2, h3, hre, hg, he,
      isFormatCall, isDeleteCall, isSendCall, transcribeParts]

theorem C3_no_text_edits_interim_witness :
    (handleVoiceMessage envW3 ⟨1, "abc"⟩ ⟨0, []⟩).2.trace =
      [Call.sendMessage 1 processingText none,
       Call.getFile "abc",
       Call.downloadFile "voice/file_7.oga",
       Call.generateContent (transcribeParts "QUJD"),
       Call.editMessageText 1 10 recognitionFailedText] ++ [] ∧
    List.countP isFormatCall (handleVoiceMessage envW3 ⟨1, "abc"⟩ ⟨0, []⟩).2.trace = 0 ∧
    List.countP isDeleteCall (handleVoiceMessage envW3 ⟨1, "abc"⟩ ⟨0, []⟩).2.trace = 0 ∧
    List.countP isSendCall (handleVoiceMessage envW3 ⟨1, "abc"⟩ ⟨0, []⟩).2.trace = 1 :=
  C3_no_text_edits_interim envW3 1 "abc" 10 "voice/file_7.oga" "QUJD" ⟨none, some ""⟩
    rfl rfl rfl rfl rfl rfl

/-- C4: when the reformatting response yields no usable text, the run still
completes and the note section of the final sent message is the raw
transcription text verbatim: the final sendMessage call carries
finalText t t, whose note part is t. -/
theorem C4_note_falls_back_to_transcription (env : Env) (c : Int) (f : String)
    (mid mid2 : Int) (p a t : String) (resp1 resp2 : GeminiResponse)
    (h0 : env.send 0 = Except.ok mid)
    (h1 : env.getFileR 1 = Except.ok p)
    (h2 : env.downloadR 2 = Except.ok a)
    (h3 : env.gemini 3 = Except.ok resp1)
    (hr1 : resp1.error = none)
    (hg1 : geminiText resp1 = some t)
    (h4 : env.gemini 4 = Except.ok resp2)
    (hg2 : geminiText resp2 = none)
    (h5 : env.deleteR 5 = Except.ok ())
    (h6 : env.send 6 = Except.ok mid2) :
    handleVoiceMessage env ⟨c, f⟩ ⟨0, []⟩ =
      (Except.ok (), ⟨7,
        [Call.sendMessage c processingText none,
         Call.getFile f,
         Call.downloadFile p,
         Call.generateContent (transcribeParts a),
         Call.generateContent (formatParts t),
         Call.deleteMessage c mid,
         Call.sendMessage c (finalText t t) (some "HTML")]⟩) := by
  simp [handleVoiceMessage, voiceFlowBody, sendMessage, getFile, downloadFile,
    getTranscription, geminiGenerate, formatAsNote, editMessage, deleteMessage, callOut,
    bind_run, pure_run, M.bind, M.pure, M.tryCatch, M.throw,
    h0, h1, h2, h3, h4, h5, h6, hr1, hg1, hg2]

theorem C4_note_falls_back_to_transcription_witness :
    handleVoiceMessage envNoNote ⟨1, "abc"⟩ ⟨0, []⟩ =
      (Except.ok (), ⟨7,
        [Call.sendMessage 1 processingText none,
         Call.getFile "abc",
         Call.downloadFile "voice/file_7.oga",
         Call.generateContent (transcribeParts "QUJD"),
         Call.generateContent (formatParts "Привет мир."),
         Call.deleteMessage 1 10,
         Call.sendMessage 1 (finalText "Привет мир." "Привет мир.") (some "HTML")]⟩) :=
  C4_note_falls_back_to_transcription envNoNote 1 "abc" 10 16 "voice/file_7.oga" "QUJD"
    "Привет мир." ⟨none, some "Привет мир."⟩ ⟨some "oops", none⟩
    rfl rfl rfl rfl rfl rfl rfl rfl rfl rfl

/-- C5 counterexample: the claim says both generative-service operations
raise an exception when the decoded response carries a top-level error
object, but formatAsNote never inspects the error field: on a response
carrying an error object and no text it returns Except.ok with the raw
transcription instead of raising. -/
theorem C5_counterexample_format_ignores_error :
    envErr.gemini 0 = Except.ok ⟨some "quota exceeded", none⟩ ∧
    formatAsNote envErr "Привет мир." ⟨0, []⟩ =
      (Except.ok "Привет мир.",
       ⟨1, [Call.generateContent (formatParts "Привет мир.")]⟩) :=
  ⟨rfl, rfl⟩

/-- C5 (amended): getTranscription raises an exception carrying the
service's message text when the decoded response carries a top-level error
object, and yields null when the text path is absent and no error object is
present; formatAsNote never raises on a decoded response, whether or not it
carries an error object, and yields the text part, falling back to the raw
transcription when the text path is absent. -/
theorem C5_error_raising_semantics :
    (∀ (env : Env) (audio : String) (s : S) (resp : GeminiResponse) (m : String),
        env.gemini s.k = Except.ok resp → resp.error = some m →
        getTranscription env audio s =
          (Except.error m,
           ⟨s.k + 1, s.trace ++ [Call.generateContent (transcribeParts audio)]⟩)) ∧
    (∀ (env : Env) (audio : String) (s : S) (resp : GeminiResponse),
        env.gemini s.k = Except.ok resp → resp.error = none → geminiText resp = none →
        getTranscription env audio s =
          (Except.ok none,
           ⟨s.k + 1, s.trace ++ [Call.generateContent (transcribeParts audio)]⟩)) ∧
    (∀ (env : Env) (t : String) (s : S) (resp : GeminiResponse),
        env.gemini s.k = Except.ok resp →
        formatAsNote env t s =
          (Except.ok ((geminiText resp).getD t),
           ⟨s.k + 1, s.trace ++ [Call.generateContent (formatParts t)]⟩)) := by
  refine ⟨?_, ?_, ?_⟩
  · intro env audio s resp m hre he
    simp [getTranscription, geminiGenerate, callOut, bind_run, pure_run,
      M.bind, M.pure, M.throw, hre, he]
  · intro env audio s resp hre he hg
    simp [getTranscription, geminiGenerate, callOut, bind_run, pure_run,
      M.bind, M.pure, M.throw, hre, he, hg]
  · intro env t s resp hre
    simp [formatAsNote, geminiGenerate, callOut, bind_run, pure_run,
      M.bind, M.pure, hre]

theorem C5_error_raising_semantics_witness :
    getTranscription envErr "QUJD" ⟨0, []⟩ =
      (Except.error "quota exceeded",
       ⟨1, [Call.generateContent (transcribeParts "QUJD")]⟩) ∧
    getTranscription envW2 "QUJD" ⟨0, []⟩ =
      (Except.ok none, ⟨1, [Call.generateContent (transcribeParts "QUJD")]⟩) ∧
    formatAsNote envErr "Привет" ⟨0, []⟩ =
      (Except.ok ((geminiText ⟨some "quota exceeded", none⟩).getD "Привет"),
       ⟨1, [Call.generateContent (formatParts "Привет")]⟩) :=
  ⟨C5_error_raising_semantics.1 envErr "QUJD" ⟨0, []⟩ ⟨some "quota exceeded", none⟩
      "quota exceeded" rfl rfl,
   C5_error_raising_semantics.2.1 envW2 "QUJD" ⟨0, []⟩ ⟨none, none⟩ rfl rfl rfl,
   C5_error_raising_semantics.2.2 envErr "Привет" ⟨0, []⟩ ⟨some "quota exceeded", none⟩ rfl⟩

/-- C6: an update whose message is a reply to a message containing voice is
processed as that voice message with the chat overwritten by the replying
message's chat, and the resulting run is identical to processing the
replied-to voice message directly (same result, same call count, same
arguments everywhere) except that every chat-targeting outbound call
carries the replying message's chat id instead of the original chat id. -/
theorem C6_reply_processing_retargets_chat (env : Env) (m : Message)
    (r : ReplyMessage) (v : Voice)
    (hv : m.voice = none) (hr : m.reply_to_message = some r) (hrv : r.voice = some v) :
    resolveVoiceMessage m = some ⟨m.chat.id, v.file_id⟩ ∧
    handleVoiceMessage env ⟨m.chat.id, v.file_id⟩ ⟨0, []⟩ =
      ((handleVoiceMessage env ⟨r.chat.id, v.file_id⟩ ⟨0, []⟩).1,
       ⟨(handleVoiceMessage env ⟨r.chat.id, v.file_id⟩ ⟨0, []⟩).2.k,
        (handleVoiceMessage env ⟨r.chat.id, v.file_id⟩ ⟨0, []⟩).2.trace.map
          (Call.retarget m.chat.id)⟩) := by
  refine ⟨?_, handleVoiceMessage_retarget env r.chat.id m.chat.id v.file_id⟩
  simp [resolveVoiceMessage, hv, hr, hrv]

theorem C6_reply_processing_retargets_chat_witness :
    resolveVoiceMessage mReply = some ⟨(5 : Int), "abc"⟩ ∧
    handleVoiceMessage envOK ⟨(5 : Int), "abc"⟩ ⟨0, []⟩ =
      ((handleVoiceMessage envOK ⟨(7 : Int), "abc"⟩ ⟨0, []⟩).1,
       ⟨(handleVoiceMessage envOK ⟨(7 : Int), "abc"⟩ ⟨0, []⟩).2.k,
        (handleVoiceMessage envOK ⟨(7 : Int), "abc"⟩ ⟨0, []⟩).2.trace.map
          (Call.retarget 5)⟩) :=
  C6_reply_processing_retargets_chat envOK mReply ⟨⟨7⟩, some ⟨"abc"⟩⟩ ⟨"abc"⟩ rfl rfl rfl

/-- C7: in a successful run (transcription text and note text both
present), the trace is exactly the seven calls of the happy path: the
deleteMessage of the interim message is issued strictly before the final
sendMessage, and the final message text is the transcription, then the
divider, then the note, in HTML parse mode. -/
theorem C7_success_deletes_interim_then_sends (env : Env) (c : Int) (f : String)
    (mid mid2 : Int) (p a t n : String) (resp1 resp2 : GeminiResponse)
    (h0 : env.send 0 = Except.ok mid)
    (h1 : env.getFileR 1 = Except.ok p)
    (h2 : env.downloadR 2 = Except.ok a)
    (h3 : env.gemini 3 = Except.ok resp1)
    (hr1 : resp1.error = none)
    (hg1 : geminiText resp1 = some t)
    (h4 : env.gemini 4 = Except.ok resp2)
    (hg2 : geminiText resp2 = some n)
    (h5 : env.deleteR 5 = Except.ok ())
    (h6 : env.send 6 = Except.ok mid2) :
    handleVoiceMessage env ⟨c, f⟩ ⟨0, []⟩ =
      (Except.ok (), ⟨7,
        [Call.sendMessage c processingText none,
         Call.getFile f,
         Call.downloadFile p,
         Call.generateContent (transcribeParts a),
         Call.generateContent (formatParts t),
         Call.deleteMessage c mid,
         Call.sendMessage c (finalText t n) (some "HTML")]⟩) ∧
    finalText t n =
      "📝 <b>Транскрипция:</b>\n" ++ t ++ "\n\n" ++ "━━━━━━━━━━━━━━━\n\n" ++
        "📋 <b>Заметка:</b>\n" ++ n := by
  constructor
  · simp [handleVoiceMessage, voiceFlowBody, sendMessage, getFile, downloadFile,
      getTranscription, geminiGenerate, formatAsNote, editMessage, deleteMessage, callOut,
      bind_run, pure_run, M.bind, M.pure, M.tryCatch, M.throw,
      h0, h1, h2, h3, h4, h5, h6, hr1, hg1, hg2]
  · rfl

theorem C7_success_deletes_interim_then_sends_witness :
    handleVoiceMessage envOK ⟨1, "abc"⟩ ⟨0, []⟩ =
      (Except.ok (), ⟨7,
        [Call.sendMessage 1 processingText none,
         Call.getFile "abc",
         Call.downloadFile "voice/file_7.oga",
         Call.generateContent (transcribeParts "QUJD"),
         Call.generateContent (formatParts "Привет мир."),
         Call.deleteMessage 1 10,
         Call.sendMessage 1 (finalText "Привет мир." "Заметка\n\n• Привет")
           (some "HTML")]⟩) ∧
    finalText "Привет мир." "Заметка\n\n• Привет" =
      "📝 <b>Транскрипция:</b>\n" ++ "Привет мир." ++ "\n\n" ++ "━━━━━━━━━━━━━━━\n\n" ++
        "📋 <b>Заметка:</b>\n" ++ "Заметка\n\n• Привет" :=
  C7_success_deletes_interim_then_sends envOK 1 "abc" 10 16 "voice/file_7.oga" "QUJD"
    "Привет мир." "Заметка\n\n• Привет" ⟨none, some "Привет мир."⟩
    ⟨none, some "Заметка\n\n• Привет"⟩ rfl rfl rfl rfl rfl rfl rfl rfl rfl rfl

/-- C8: a POST update containing neither a voice attachment (direct or in a
replied-to message) nor a callback_query produces no outbound call, and the
response is still 200 ok:true. -/
theorem C8_no_voice_no_callback_no_calls (env : Env) (u : Update)
    (hm : ∀ m, u.message = some m →
            m.voice = none ∧ ∀ r, m.reply_to_message = some r → r.voice = none)
    (hc : u.callback_query = none) :
    handler env ⟨"POST", u⟩ = (⟨200, true⟩, []) := by
  rcases hu : u.message with _ | m
  · simp [handler, handlerBody, hu, hc, bind_run, M.bind, pure_run, M.pure]
  · obtain ⟨h1, h2⟩ := hm m hu
    have hres : resolveVoiceMessage m = none := by
      rcases hr2 : m.reply_to_message with _ | r
      · simp [resolveVoiceMessage, h1, hr2]
      · simp [resolveVoiceMessage, h1, hr2, h2 r hr2]
    simp [handler, handlerBody, hu, hc, hres, bind_run, M.bind, pure_run, M.pure]

theorem C8_no_voice_no_callback_no_calls_witness :
    handler envOK ⟨"POST", ⟨some ⟨⟨1⟩, none, some ⟨⟨2⟩, none⟩⟩, none⟩⟩ =
      (⟨200, true⟩, []) :=
  C8_no_voice_no_callback_no_calls envOK ⟨some ⟨⟨1⟩, none, some ⟨⟨2⟩, none⟩⟩, none⟩
    (by
      intro m hm
      cases hm
      exact ⟨rfl, by intro r hr; cases hr; rfl⟩)
    rfl

/-- C9: when a message has both a direct voice field and a replied-to
message containing voice, the direct voice attachment is the one processed:
the located voice message is the direct one, the handler behaves exactly as
it does with the reply stripped, and (absent a callback query) the whole
request's trace is that of the single voice-processing flow, so at most one
flow runs per request. -/
theorem C9_direct_voice_takes_precedence (env : Env) (u : Update) (m : Message)
    (v : Voice) (r : ReplyMessage)
    (h1 : u.message = some m) (h2 : m.voice = some v)
    (h3 : m.reply_to_message = some r) :
    resolveVoiceMessage m = some ⟨m.chat.id, v.file_id⟩ ∧
    handler env ⟨"POST", u⟩ =
      handler env ⟨"POST", ⟨some ⟨m.chat, m.voice, none⟩, u.callback_query⟩⟩ ∧
    (u.callback_query = none →
      (handler env ⟨"POST", u⟩).2 =
        (handleVoiceMessage env ⟨m.chat.id, v.file_id⟩ ⟨0, []⟩).2.trace) := by
  refine ⟨by simp [resolveVoiceMessage, h2], ?_, ?_⟩
  · simp [handler, handlerBody, h1, h2, resolveVoiceMessage]
  · intro hc
    rcases hv : handleVoiceMessage env ⟨m.chat.id, v.file_id⟩ ⟨0, []⟩ with ⟨res, s⟩
    cases res <;>
      simp [handler, handlerBody, h1, h2, resolveVoiceMessage, hc, hv,
        bind_run, M.bind, pure_run, M.pure]

theorem C9_direct_voice_takes_precedence_witness :
    resolveVoiceMessage ⟨⟨5⟩, some ⟨"xyz"⟩, some ⟨⟨7⟩, some ⟨"abc"⟩⟩⟩ =
      some ⟨(5 : Int), "xyz"⟩ ∧
    handler envOK ⟨"POST", ⟨some ⟨⟨5⟩, some ⟨"xyz"⟩, some ⟨⟨7⟩, some ⟨"abc"⟩⟩⟩, none⟩⟩ =
      handler envOK ⟨"POST", ⟨some ⟨⟨5⟩, some ⟨"xyz"⟩, none⟩, none⟩⟩ ∧
    ((none : Option CallbackQuery) = none →
      (handler envOK ⟨"POST", ⟨some ⟨⟨5⟩, some ⟨"xyz"⟩, some ⟨⟨7⟩, some ⟨"abc"⟩⟩⟩, none⟩⟩).2 =
        (handleVoiceMessage envOK ⟨(5 : Int), "xyz"⟩ ⟨0, []⟩).2.trace) :=
  C9_direct_voice_takes_precedence envOK
    ⟨some ⟨⟨5⟩, some ⟨"xyz"⟩, some ⟨⟨7⟩, some ⟨"abc"⟩⟩⟩, none⟩
    ⟨⟨5⟩, some ⟨"xyz"⟩, some ⟨⟨7⟩, some ⟨"abc"⟩⟩⟩ ⟨"xyz"⟩ ⟨⟨7⟩, some ⟨"abc"⟩⟩
    rfl rfl rfl

/-- C10: if the interim sendMessage itself throws, the flow's error
boundary is never entered: handleVoiceMessage propagates the exception with
the interim send as the only call issued (no editMessageText, no further
step), and the top-level handler still responds 200 ok:true. -/
theorem C10_interim_send_failure_propagates (env : Env) (e : String) (u : Update)
    (m : Message) (v : Voice)
    (hs : env.send 0 = Except.error e)
    (h1 : u.message = some m) (h2 : m.voice = some v)
    (hc : u.callback_query = none) :
    handleVoiceMessage env ⟨m.chat.id, v.file_id⟩ ⟨0, []⟩ =
      (Except.error e, ⟨1, [Call.sendMessage m.chat.id processingText none]⟩) ∧
    handler env ⟨"POST", u⟩ =
      (⟨200, true⟩, [Call.sendMessage m.chat.id processingText none]) := by
  have hvm : handleVoiceMessage env ⟨m.chat.id, v.file_id⟩ ⟨0, []⟩ =
      (Except.error e, ⟨1, [Call.sendMessage m.chat.id processingText none]⟩) := by
    simp [handleVoiceMessage, sendMessage, callOut, bind_run, M.bind, M.tryCatch, hs]
  refine ⟨hvm, ?_⟩
  simp [handler, handlerBody, h1, h2, resolveVoiceMessage, hc, hvm,
    bind_run, M.bind, pure_run, M.pure]

theorem C10_interim_send_failure_propagates_witness :
    handleVoiceMessage envW10 ⟨(3 : Int), "v1"⟩ ⟨0, []⟩ =
      (Except.error "down", ⟨1, [Call.sendMessage 3 processingText none]⟩) ∧
    handler envW10 ⟨"POST", ⟨some ⟨⟨3⟩, some ⟨"v1"⟩, none⟩, none⟩⟩ =
      (⟨200, true⟩, [Call.sendMessage 3 processingText none]) :=
  C10_interim_send_failure_propagates envW10 "down"
    ⟨some ⟨⟨3⟩, some ⟨"v1"⟩, none⟩, none⟩ ⟨⟨3⟩, some ⟨"v1"⟩, none⟩ ⟨"v1"⟩
    rfl rfl rfl rfl

end VoiceBot
